import Mathlib

/-!
Verification development for the BSE announcement-scraper pipeline
(`core/scraper.py`, `core/summarizer.py`, `core/notifier.py`).

The Python source is shallowly embedded: each function below mirrors one
source function, with external effects (HTTP calls, the Gemini API, the
filesystem, the Telegram transport, randomness) represented by explicit
oracle parameters, and with traces (delays, requests, download and
summarization invocations, notification events) returned as data.
The persistence layer (`core/db_handler.py`) is not part of the sources;
its contract is modelled from the design document, as marked on the
relevant definitions.
-/

namespace BseAuto

/-! ## Resilient call wrappers

`make_api_request` embeds `BSEScraper._make_api_request` (scraper.py):
`attempts n` is the outcome of the `requests.get` + JSON parse on the
0-based attempt `n` (`none` = `RequestException`/`JSONDecodeError`).
The second component collects the `time.sleep` backoff delays, in order.
-/

def apiRetryGo {R : Type} (attempts : Nat → Option R) (retries : Nat)
    (backoff_factor : ℚ) : List Nat → Option R × List ℚ
  | [] => (none, [])
  | a :: rest =>
    match attempts a with
    | some r => (some r, [])
    | none =>
      if a + 1 = retries then (none, [])
      else
        let pr := apiRetryGo attempts retries backoff_factor rest
        (pr.1, (backoff_factor * 2 ^ a) :: pr.2)

def make_api_request {R : Type} (attempts : Nat → Option R) (retries : Nat)
    (backoff_factor : ℚ) : Option R × List ℚ :=
  apiRetryGo attempts retries backoff_factor (List.range retries)

/-! `gemini_call_with_retry` embeds `_gemini_call_with_retry`
(summarizer.py). `call k` classifies the 1-based attempt `k`:
`.ok v` = the response parsed to `v`; `.transient` = a
`JSONDecodeError`/`ValueError` (empty or malformed body); `.fatal` = any
other exception, absorbed by the catch-all branch which breaks the loop.
`jitter k` stands for the `random.uniform(0, 1)` draw after attempt `k`.
`backoffs` collects the `sleep_time` values of the except branch (the
fixed `time.sleep(1)` issued before every attempt is not a backoff and is
not recorded). -/

inductive GemAttempt (V : Type) where
  | ok (v : V)
  | transient
  | fatal
deriving DecidableEq

structure GemResult (V : Type) where
  result : Option V
  attemptsMade : Nat
  backoffs : List ℚ
deriving DecidableEq

def gemRetryGo {V : Type} (call : Nat → GemAttempt V) (jitter : Nat → ℚ)
    (max_attempts : Nat) : List Nat → GemResult V
  | [] => ⟨none, 0, []⟩
  | k :: rest =>
    match call k with
    | .ok v => ⟨some v, 1, []⟩
    | .fatal => ⟨none, 1, []⟩
    | .transient =>
      if k = max_attempts then ⟨none, 1, []⟩
      else
        let r := gemRetryGo call jitter max_attempts rest
        ⟨r.result, r.attemptsMade + 1, ((2 : ℚ) ^ k + jitter k) :: r.backoffs⟩

def gemini_call_with_retry {V : Type} (call : Nat → GemAttempt V)
    (jitter : Nat → ℚ) (max_attempts : Nat) : GemResult V :=
  gemRetryGo call jitter max_attempts ((List.range max_attempts).map (fun k => k + 1))

/-! ## Fetcher

`fetch_announcements` embeds `BSEScraper.fetch_announcements`
(scraper.py). `pageAt p` is the post-retry result of
`_make_api_request` for page `p` (`none` = all retries exhausted).
The result pairs the concatenated records with the list of page numbers
requested, in request order. -/

structure FeedResp (α : Type) where
  rowcnt : Nat
  table : List α
deriving DecidableEq

def fetchLoop {α : Type} (pageAt : Nat → Option (FeedResp α)) :
    List Nat → List α × List Nat
  | [] => ([], [])
  | p :: rest =>
    match pageAt p with
    | none => ([], [p])
    | some d =>
      if d.table.isEmpty then ([], [p])
      else
        let r := fetchLoop pageAt rest
        (d.table ++ r.1, p :: r.2)

def fetch_announcements {α : Type} (pageAt : Nat → Option (FeedResp α)) :
    List α × List Nat :=
  match pageAt 1 with
  | none => ([], [1])
  | some init =>
    if init.rowcnt = 0 then ([], [1])
    else if init.table.length = 0 then ([], [1])
    else
      let total_pages := (init.rowcnt + init.table.length - 1) / init.table.length
      let r := fetchLoop pageAt (List.range' 2 (total_pages - 1))
      (init.table ++ r.1, 1 :: r.2)

/-! ## Content classifier and summarization dispatcher

Embedding of `GeminiSummarizer.summarize` and
`GeminiSummarizer._summarize_media_from_url` (summarizer.py).
URLs and text are `List Char`; `isFileUri` is the
`startswith("file://")` test. -/

def isFileUri (u : List Char) : Bool :=
  let p := "file://".toList
  p.isPrefixOf u

structure LinkEntry where
  url : List Char
  link_type : String
deriving DecidableEq

/-- The `content_data` dict produced by the PDF processor: its `type`
field is `"text"`, `"link"`, or anything else (the error shape). -/
inductive ClassifiedContent where
  | text (body : List Char)
  | link (entries : List LinkEntry)
  | procError (msg : List Char)
deriving DecidableEq

/-- The summarizer's result dict, keyed by its `type` field:
`"summary"` (with the inner links injected by the media path),
`"web_link"` (carrying the web entries), or `"error"` (with the
`error_type` kind produced by `_create_error_json`). -/
inductive SumResult (V : Type) where
  | summary (v : V) (innerLinks : List (List Char))
  | webLink (links : List LinkEntry)
  | err (kind : String)
deriving DecidableEq

/-- Oracle for the media path of `_summarize_media_from_url`:
`localExists` is the existence test on a `file://` path; `downloadOk`
tells whether the `requests.get` download of a remote URL succeeds
(an exception otherwise); `uploadOk` whether `client.files.upload`
succeeds; `pollFailed` whether the polled file state ends `FAILED`
(which raises) rather than leaving `PROCESSING` normally; `call` and
`jitter` drive the inner `_gemini_call_with_retry`. -/
structure MediaEnv (V : Type) where
  localExists : Bool
  downloadOk : Bool
  uploadOk : Bool
  pollFailed : Bool
  call : Nat → GemAttempt V
  jitter : Nat → ℚ

/-- Trace of one `_summarize_media_from_url` execution: the returned
dict, the number of Gemini generate calls issued, whether a local
scratch copy was created in `media_cache`, whether the `finally` block
unlinked it, whether `client.files.upload` succeeded, and whether the
`finally` block deleted the uploaded remote file. -/
structure MediaRun (V : Type) where
  result : SumResult V
  aiCalls : Nat
  localCreated : Bool
  localRemoved : Bool
  uploaded : Bool
  remoteDeleted : Bool
deriving DecidableEq

/-- The upload/poll/summarize stages of `_summarize_media_from_url`,
entered once `filepath` is set; `created` records whether a scratch
copy was written to `media_cache` (true exactly for successfully
downloaded remote URLs).  The `finally` block unlinks `filepath` iff it
exists and the URL is not `file://` (= iff `created`), and deletes the
remote file iff `media_file` was set (= iff the upload succeeded). -/
def mediaUploadStage {V : Type} (env : MediaEnv V) (mediaUrl : List Char)
    (created : Bool) : MediaRun V :=
  if !env.uploadOk then
    ⟨.err "media_summarization_error", 0, created, created, false, false⟩
  else if env.pollFailed then
    ⟨.err "media_summarization_error", 0, created, created, true, true⟩
  else
    let g := gemini_call_with_retry env.call env.jitter 3
    match g.result with
    | none => ⟨.err "gemini_media_error", g.attemptsMade, created, created, true, true⟩
    | some v => ⟨.summary v [mediaUrl], g.attemptsMade, created, created, true, true⟩

def summarize_media_from_url {V : Type} (env : MediaEnv V)
    (mediaUrl : List Char) : MediaRun V :=
  if isFileUri mediaUrl then
    if !env.localExists then
      ⟨.err "media_summarization_error", 0, false, false, false, false⟩
    else mediaUploadStage env mediaUrl false
  else if !env.downloadOk then
    ⟨.err "media_summarization_error", 0, false, false, false, false⟩
  else mediaUploadStage env mediaUrl true

/-- Environment for `GeminiSummarizer.summarize`: the text-path retry
oracle plus the media-path environment. -/
structure SumEnv (V : Type) where
  textCall : Nat → GemAttempt V
  jitter : Nat → ℚ
  media : MediaEnv V

/-- Trace of one `summarize` execution: the result dict, the number of
summarization `generate_content` calls issued (text attempts or media
attempts), and the number of company-name extraction calls. -/
structure SumOut (V : Type) where
  result : SumResult V
  aiCalls : Nat
  extractCalls : Nat
deriving DecidableEq

/-- The company-name fallback test of `summarize`: name missing or
`strip().lower() == "n/a"`. -/
def pyStrip (s : List Char) : List Char :=
  ((s.dropWhile Char.isWhitespace).reverse.dropWhile Char.isWhitespace).reverse

def placeholderName (company : List Char) : Bool :=
  company.isEmpty || ((pyStrip company).map Char.toLower == "n/a".toList)

def summarize {V : Type} (env : SumEnv V) (content : ClassifiedContent)
    (company : List Char) : SumOut V :=
  let ec := if placeholderName company then 1 else 0
  match content with
  | .text _ =>
    let g := gemini_call_with_retry env.textCall env.jitter 3
    match g.result with
    | none => ⟨.err "gemini_text_error", g.attemptsMade, ec⟩
    | some v => ⟨.summary v [], g.attemptsMade, ec⟩
  | .link entries =>
    let web_links := entries.filter (fun l => l.link_type == "web")
    let media_links := entries.filter (fun l => l.link_type == "media")
    match media_links with
    | m :: _ =>
      let mr := summarize_media_from_url env.media m.url
      ⟨mr.result, mr.aiCalls, ec⟩
    | [] =>
      if !web_links.isEmpty then ⟨.webLink web_links, 0, ec⟩
      else ⟨.err "no_actionable_content", 0, ec⟩
  | .procError _ => ⟨.err "processing_error", 0, ec⟩

/-! ## Notifier

Embedding of `TelegramNotifier` (notifier.py).  `net k` classifies the
`bot.send_message` outcome on the `k`-th attempt of one
`_send_message` call; each notify method returns the number of actual
transport sends it performed, paired (for `_send_message`) with the
boolean result. -/

structure NotifierCfg where
  bot_token : Option String
  chat_id_summaries : Option String
  chat_id_links : Option String

/-- Python truthiness of an `os.getenv` result. -/
def truthy : Option String → Bool
  | none => false
  | some s => !(s == "")

def is_enabled (cfg : NotifierCfg) : Bool :=
  truthy cfg.bot_token && truthy cfg.chat_id_summaries && truthy cfg.chat_id_links

inductive SendAttempt where
  | delivered
  | timedOut
  | badRequest
  | fatal
deriving DecidableEq

/-- The attempt loop of `_send_message` with `parse_mode=None`: a
`BadRequest` here is unrecoverable.  The `Nat` counts transport sends. -/
def sendLoopPlain (net : Nat → SendAttempt) : List Nat → Nat → Bool × Nat
  | [], sent => (false, sent)
  | k :: rest, sent =>
    match net k with
    | .delivered => (true, sent + 1)
    | .timedOut => sendLoopPlain net rest (sent + 1)
    | .badRequest => (false, sent + 1)
    | .fatal => (false, sent + 1)

def send_plain (cfg : NotifierCfg) (netPlain : Nat → SendAttempt) : Bool × Nat :=
  if !is_enabled cfg then (true, 0)
  else sendLoopPlain netPlain [1, 2, 3] 0

/-- The attempt loop of `_send_message` with `parse_mode="MarkdownV2"`:
a `BadRequest` falls back once to a plain-text resend. -/
def sendLoopMd (cfg : NotifierCfg) (netMd netPlain : Nat → SendAttempt) :
    List Nat → Nat → Bool × Nat
  | [], sent => (false, sent)
  | k :: rest, sent =>
    match netMd k with
    | .delivered => (true, sent + 1)
    | .timedOut => sendLoopMd cfg netMd netPlain rest (sent + 1)
    | .badRequest =>
      let p := send_plain cfg netPlain
      (p.1, sent + 1 + p.2)
    | .fatal => (false, sent + 1)

def send_message (cfg : NotifierCfg) (netMd netPlain : Nat → SendAttempt) :
    Bool × Nat :=
  if !is_enabled cfg then (true, 0)
  else sendLoopMd cfg netMd netPlain [1, 2, 3] 0

/-- `notify_summary` sends exactly one message; returns its transport
send count. -/
def notify_summary (cfg : NotifierCfg) (netMd netPlain : Nat → SendAttempt) : Nat :=
  (send_message cfg netMd netPlain).2

def notify_error (cfg : NotifierCfg) (netMd netPlain : Nat → SendAttempt) : Nat :=
  (send_message cfg netMd netPlain).2

/-- `notify_weblink` returns early when the links list is empty,
otherwise sends one message. -/
def notify_weblink (cfg : NotifierCfg) (netMd netPlain : Nat → SendAttempt)
    (links : List LinkEntry) : Nat :=
  if links.isEmpty then 0
  else (send_message cfg netMd netPlain).2

/-! ## Notification queue

Embedding of `BSEScraper.run_all_notifications_sequentially`
(scraper.py): tasks are dispatched in order, with `asyncio.sleep(2)`
between consecutive dispatches (`if idx < total`).  `send t` is the
boolean outcome of awaiting task `t`'s notification coroutine; the
event list records the dispatches and delays in execution order. -/

inductive NEvent (τ : Type) where
  | dispatch (t : τ) (ok : Bool)
  | delay (d : ℚ)
deriving DecidableEq

def drainGo {τ : Type} (send : τ → Bool) (total : Nat) :
    Nat → List τ → List (NEvent τ)
  | _, [] => []
  | idx, t :: rest =>
    NEvent.dispatch t (send t) ::
      ((if idx < total then [NEvent.delay 2] else []) ++
        drainGo send total (idx + 1) rest)

def run_all_notifications_sequentially {τ : Type} (send : τ → Bool)
    (tasks : List τ) : List (NEvent τ) :=
  if tasks.isEmpty then []
  else drainGo send tasks.length 1 tasks

/-! ## Dedup/state store

`core/db_handler.py` is not among the sources; only its call sites in
`BSEScraper` are.  The store is therefore modelled from the design
document's §3/§4.3 contract: a persistent map from announcement
identifier to status. -/

abbrev NewsId := List Char

inductive Status where
  | NEW
  | DOWNLOADED
  | PROCESSED
  | ERROR_PROCESSING
deriving DecidableEq

abbrev DB := List (NewsId × Status)

def dbGet (db : DB) (id : NewsId) : Option Status :=
  (db.find? (fun p => p.1 == id)).map (fun p => p.2)

def dbSet (db : DB) (id : NewsId) (st : Status) : DB :=
  (id, st) :: db.filter (fun p => !(p.1 == id))

/-- Modelled from the spec: `DBHandler.is_processed` — true iff a
ProcessingRecord for the identifier exists (re-observation of a known
identifier must not re-download). -/
def is_processed (db : DB) (id : NewsId) : Bool :=
  (dbGet db id).isSome

/-- Modelled from the spec: `DBHandler.needs_summarization` — true iff
the status is DOWNLOADED or the record is absent despite a successful
download. -/
def needs_summarization (db : DB) (id : NewsId) : Bool :=
  match dbGet db id with
  | some Status.DOWNLOADED => true
  | none => true
  | some _ => false

/-- Modelled from the spec: `DBHandler.add_new_announcement` — records
the identifier at DOWNLOADED status (`recordDownloaded`). -/
def add_new_announcement (db : DB) (id : NewsId) : DB :=
  dbSet db id Status.DOWNLOADED

/-- Modelled from the spec: `DBHandler.update_summary` — persists the
summarization outcome under the given status
(`recordSummaryOutcome`). -/
def update_summary (db : DB) (id : NewsId) (st : Status) : DB :=
  dbSet db id st

/-! ## Orchestrator run loop

Embedding of `BSEScraper.run`, `BSEScraper.download_pdf` and
`BSEScraper.process_and_summarize` (scraper.py).  The per-item
summarization outcome is abstracted by an oracle keyed by identifier
(`SumType` is the `type` field of the dict `summarize` returns). -/

inductive SumType where
  | summary
  | web_link
  | error
  | other
deriving DecidableEq

/-- A deferred notification factory collected by the run loop, tagged
with the announcement it notifies about. -/
inductive NTask where
  | summary (id : NewsId)
  | weblink (id : NewsId)
  | error (id : NewsId)
deriving DecidableEq

structure Announcement where
  news_id : Option NewsId
  scrip_code : List Char
  slongname : List Char
  pdf_url_override : Option (List Char)
  is_test : Bool

structure RunEnv where
  test_mode : Bool
  max_items : Nat
  xbrl : NewsId → List Char → Option (List Char)
  webOk : List Char → Bool
  fs0 : List (List Char)
  oracle : NewsId → SumType

structure RunState where
  db : DB
  created : List (List Char)
  newItems : Nat
  tasks : List NTask
  downloads : List NewsId
  summCalls : List NewsId

def initState (db : DB) : RunState :=
  ⟨db, [], 0, [], [], []⟩

def pathExists (env : RunEnv) (created : List (List Char)) (p : List Char) : Bool :=
  env.fs0.contains p || created.contains p

def pyRstrip (s : List Char) : List Char :=
  (s.reverse.dropWhile Char.isWhitespace).reverse

/-- `BSEScraper.download_pdf`: in test mode only logs the URL; a
`file://` URL is resolved in place (note the source returns
`local_path`, not the computed downloads-folder path); a web URL is
downloaded to `downloads/{scrip}_{sanitized name}_{id[:8]}.pdf`.
Returns the resulting path (if any) and the updated set of files
created this run. -/
def download_pdf (env : RunEnv) (created : List (List Char))
    (pdf_url : List Char) (scrip_code company_name news_id : List Char) :
    Option (List Char) × List (List Char) :=
  if env.test_mode then (none, created)
  else if isFileUri pdf_url then
    let local_path := pdf_url.drop 7
    if pathExists env created local_path then (some local_path, created)
    else (none, created)
  else if env.webOk pdf_url then
    let safe_name := pyRstrip (company_name.filter (fun c => c.isAlphanum || c.isWhitespace))
    let filename := scrip_code ++ ('_' :: safe_name) ++ ('_' :: news_id.take 8) ++ ".pdf".toList
    let filepath := "downloads/".toList ++ filename
    (some filepath, filepath :: created)
  else (none, created)

/-- `BSEScraper.process_and_summarize`: skips in test mode or when the
store says no summarization is needed; otherwise summarizes (the
oracle gives the outcome's `type`), persists PROCESSED or
ERROR_PROCESSING, and returns the notification factory.  The last
component records the summarization invocation. -/
def process_and_summarize (env : RunEnv) (db : DB) (id : NewsId) :
    DB × Option NTask × List NewsId :=
  if env.test_mode then (db, none, [])
  else if !needs_summarization db id then (db, none, [])
  else
    let t := env.oracle id
    let status := if t ≠ SumType.error then Status.PROCESSED else Status.ERROR_PROCESSING
    let db' := update_summary db id status
    let task :=
      if status = Status.PROCESSED then
        if t = SumType.summary then some (NTask.summary id)
        else if t = SumType.web_link then some (NTask.weblink id)
        else none
      else if t = SumType.error then some (NTask.error id)
      else none
    (db', task, [id])

/-- The new-item block of `BSEScraper.run` (the body guarded by
`if not self.db.is_processed(news_id)`): counts the item, resolves the
attachment URL (override first, XBRL otherwise), attempts the
download, and records DOWNLOADED on success (or, on failure, when in
test mode or for a test item).  Returns the state together with the
local path and resolved URL. -/
def newItemPhase (env : RunEnv) (s : RunState) (item : Announcement)
    (id : NewsId) (name : List Char) :
    RunState × Option (List Char) :=
  if is_processed s.db id then (s, none)
  else
    let s1 := { s with newItems := s.newItems + 1 }
    let url0 :=
      match item.pdf_url_override with
      | some u => some u
      | none => env.xbrl id item.scrip_code
    match url0 with
    | none => (s1, none)
    | some u =>
      let dl := download_pdf env s1.created u item.scrip_code name id
      let s2 := { s1 with created := dl.2, downloads := s1.downloads ++ [id] }
      match dl.1 with
      | some p => ({ s2 with db := add_new_announcement s2.db id }, some p)
      | none =>
        if env.test_mode || item.is_test then
          ({ s2 with db := add_new_announcement s2.db id }, none)
        else (s2, none)

/-- The summarization block of `BSEScraper.run`: taken when a fresh
download produced a path or the store shows a resumable
(DOWNLOADED-but-unsummarized) item; in the latter case the path is
rebuilt from the deterministic filename; the item is processed only if
the file exists. -/
def summarizePhase (env : RunEnv) (s : RunState) (item : Announcement)
    (id : NewsId) (name : List Char) (pdf_path : Option (List Char)) : RunState :=
  if pdf_path.isSome || (is_processed s.db id && needs_summarization s.db id) then
    let path :=
      match pdf_path with
      | some p => p
      | none =>
        let safe_name := pyRstrip (name.filter (fun c => c.isAlphanum || c.isWhitespace))
        let filename := item.scrip_code ++ ('_' :: safe_name) ++ ('_' :: id.take 8) ++ ".pdf".toList
        "downloads/".toList ++ filename
    if pathExists env s.created path then
      let r := process_and_summarize env s.db id
      { s with db := r.1, tasks := s.tasks ++ r.2.1.toList,
               summCalls := s.summCalls ++ r.2.2 }
    else s
  else s

/-- One iteration of the `for item in reversed(announcements)` body
(without the cap check, which lives in `runItems`). -/
def stepItem (env : RunEnv) (s : RunState) (item : Announcement) : RunState :=
  match item.news_id with
  | none => s
  | some id =>
    let name := pyStrip item.slongname
    if is_processed s.db id && !needs_summarization s.db id then s
    else
      let ph := newItemPhase env s item id name
      summarizePhase env ph.1 item id name ph.2

/-- The run loop over the (already reversed) announcement list, with
the `max_items` cap: when the cap is set and reached, the whole loop
breaks. -/
def runItems (env : RunEnv) : List Announcement → RunState → RunState
  | [], s => s
  | item :: rest, s =>
    if 0 < env.max_items ∧ env.max_items ≤ s.newItems then s
    else runItems env rest (stepItem env s item)

/-- `BSEScraper.run` on an injected announcement list over the given
persistent store. -/
def run (env : RunEnv) (db : DB) (anns : List Announcement) : RunState :=
  runItems env anns.reverse (initState db)

/-! ## Helper lemmas -/

theorem dbGet_dbSet_self (db : DB) (id : NewsId) (st : Status) :
    dbGet (dbSet db id st) id = some st := by
  unfold dbGet dbSet
  rw [List.find?_cons_of_pos _ (by simp)]
  rfl

theorem contains_head (p : List Char) (l : List (List Char)) :
    (p :: l).contains p = true := by
  simp [List.contains_cons]

theorem fetchLoop_all_good {α : Type} (pageAt : Nat → Option (FeedResp α))
    (pages : Nat → FeedResp α) :
    ∀ l : List Nat,
      (∀ p ∈ l, pageAt p = some (pages p) ∧ (pages p).table ≠ []) →
      fetchLoop pageAt l = ((l.map (fun p => (pages p).table)).flatten, l)
  | [], _ => by simp [fetchLoop]
  | p :: rest, h => by
    obtain ⟨hp, hne⟩ := h p (by simp)
    have ih := fetchLoop_all_good pageAt pages rest (fun q hq => h q (by simp [hq]))
    simp [fetchLoop, hp, List.isEmpty_iff, hne, ih]

theorem fetchLoop_break_at {α : Type} (pageAt : Nat → Option (FeedResp α))
    (pages : Nat → FeedResp α) (q : Nat) (hq : pageAt q = none) :
    ∀ (l1 l2 : List Nat),
      (∀ p ∈ l1, pageAt p = some (pages p) ∧ (pages p).table ≠ []) →
      fetchLoop pageAt (l1 ++ q :: l2) =
        ((l1.map (fun p => (pages p).table)).flatten, l1 ++ [q])
  | [], l2, _ => by simp [fetchLoop, hq]
  | p :: rest, l2, h => by
    obtain ⟨hp, hne⟩ := h p (by simp)
    have ih := fetchLoop_break_at pageAt pages q hq rest l2
      (fun r hr => h r (by simp [hr]))
    simp [fetchLoop, hp, List.isEmpty_iff, hne, ih]

theorem range'_split (s m n : Nat) :
    List.range' s (m + n) = List.range' s m ++ List.range' (s + m) n := by
  induction m generalizing s with
  | zero => simp
  | succ k ih =>
    have h1 : k + 1 + n = (k + n) + 1 := by omega
    rw [h1, List.range'_succ, ih (s + 1), List.range'_succ, List.cons_append]
    have h2 : s + 1 + k = s + (k + 1) := by omega
    rw [h2]

theorem drainGo_intersperse {τ : Type} (send : τ → Bool) (total : Nat) :
    ∀ (rest : List τ) (idx : Nat), idx + rest.length = total + 1 →
      drainGo send total idx rest =
        List.intersperse (NEvent.delay 2)
          (rest.map (fun t => NEvent.dispatch t (send t)))
  | [], _, _ => by simp [drainGo]
  | [t], idx, h => by
    have : ¬ idx < total := by simp at h; omega
    simp [drainGo, this, List.intersperse]
  | t :: t' :: rest, idx, h => by
    have hlt : idx < total := by simp at h; omega
    have ih := drainGo_intersperse send total (t' :: rest) (idx + 1) (by simp at h ⊢; omega)
    conv_lhs => rw [drainGo]
    rw [if_pos hlt, ih]
    simp [List.intersperse]

theorem drain_eq_intersperse {τ : Type} (send : τ → Bool) (tasks : List τ) :
    run_all_notifications_sequentially send tasks =
      List.intersperse (NEvent.delay 2)
        (tasks.map (fun t => NEvent.dispatch t (send t))) := by
  cases tasks with
  | nil => simp [run_all_notifications_sequentially]
  | cons t rest =>
    unfold run_all_notifications_sequentially
    rw [if_neg (by simp)]
    exact drainGo_intersperse send (t :: rest).length (t :: rest) 1 (by omega)

/-! ## Claim C2 — resilient call wrapper retry/backoff -/

/-- C2 (amended): a wrapped call that fails transiently on attempts 1
and 2 and succeeds on attempt 3 returns the success value; the backoff
delay before attempt k (k ≥ 2) equals `backoffBase * 2 ^ (k - 2)` —
backoffBase = 5 for feed-pagination calls (`_make_api_request`) and
backoffBase = 2 plus the random jitter drawn after the failed attempt
for summarization calls (`_gemini_call_with_retry`); a call failing
transiently on all three attempts returns `none` instead of raising. -/
theorem c2_retry_backoff {α β : Type} (r : α) (v : β)
    (api apiX : Nat → Option α) (call callX : Nat → GemAttempt β) (j : Nat → ℚ)
    (h1 : api 0 = none) (h2 : api 1 = none) (h3 : api 2 = some r)
    (h4 : call 1 = GemAttempt.transient) (h5 : call 2 = GemAttempt.transient)
    (h6 : call 3 = GemAttempt.ok v)
    (h7 : ∀ a, apiX a = none) (h8 : ∀ k, callX k = GemAttempt.transient) :
    make_api_request api 3 5 = (some r, [5 * 2 ^ (2 - 2), 5 * 2 ^ (3 - 2)])
    ∧ gemini_call_with_retry call j 3 =
        ⟨some v, 3, [2 * 2 ^ (2 - 2) + j 1, 2 * 2 ^ (3 - 2) + j 2]⟩
    ∧ (make_api_request apiX 3 5).1 = none
    ∧ (gemini_call_with_retry callX j 3).result = none := by
  have hr : List.range 3 = [0, 1, 2] := by decide
  have hm : (List.range 3).map (fun k => k + 1) = [1, 2, 3] := by decide
  refine ⟨?_, ?_, ?_, ?_⟩
  · unfold make_api_request
    rw [hr]
    simp [apiRetryGo, h1, h2, h3]
    try norm_num
  · unfold gemini_call_with_retry
    rw [hm]
    simp [gemRetryGo, h4, h5, h6]
    try norm_num
  · unfold make_api_request
    rw [hr]
    simp [apiRetryGo, h7]
  · unfold gemini_call_with_retry
    rw [hm]
    simp [gemRetryGo, h8]

def c2Api : Nat → Option Nat := fun a => if a = 2 then some 7 else none

def c2Call : Nat → GemAttempt Nat := fun k =>
  if k = 3 then GemAttempt.ok 9 else GemAttempt.transient

theorem c2_retry_backoff_witness :
    make_api_request c2Api 3 5 = (some 7, [5 * 2 ^ (2 - 2), 5 * 2 ^ (3 - 2)])
    ∧ gemini_call_with_retry c2Call (fun _ => 0) 3 =
        ⟨some 9, 3, [2 * 2 ^ (2 - 2) + (fun _ => (0 : ℚ)) 1,
                     2 * 2 ^ (3 - 2) + (fun _ => (0 : ℚ)) 2]⟩
    ∧ (make_api_request (fun _ => (none : Option Nat)) 3 5).1 = none
    ∧ (gemini_call_with_retry (fun _ => (GemAttempt.transient : GemAttempt Nat))
        (fun _ => 0) 3).result = none :=
  c2_retry_backoff 7 9 c2Api (fun _ => none) c2Call (fun _ => GemAttempt.transient)
    (fun _ => 0) rfl rfl rfl rfl rfl rfl (fun _ => rfl) (fun _ => rfl)

/-- C2, the claim as frozen, is false on the code: it states that the
backoff delay before attempt k is `backoffBase * 2 ^ (k - 1)`, i.e.
10 and 20 time units for the feed wrapper (base 5); `_make_api_request`
actually sleeps `5 * 2 ^ attempt` after the 0-based failed `attempt`,
i.e. 5 then 10. -/
theorem c2_backoff_formula_counterexample :
    (make_api_request c2Api 3 5).2 = [5, 10]
    ∧ ¬ (5 : ℚ) * 2 ^ (2 - 1) = 5
    ∧ ¬ (5 : ℚ) * 2 ^ (3 - 1) = 10 := by
  have hr : List.range 3 = [0, 1, 2] := by decide
  refine ⟨?_, by norm_num, by norm_num⟩
  unfold make_api_request
  rw [hr]
  simp [apiRetryGo, c2Api]
  norm_num

/-! ## Claim C9 — notification queue pacing -/

/-- C9: draining N enqueued notification tasks dispatches all N of
them in enqueue (FIFO) order, with exactly one fixed delay of 2 time
units between consecutive dispatches and none after the last; the
boolean outcome of each send (including failures) does not affect
which subsequent tasks are dispatched. -/
theorem c9_notification_pacing {τ : Type} (send : τ → Bool) (tasks : List τ) :
    run_all_notifications_sequentially send tasks =
      List.intersperse (NEvent.delay 2)
        (tasks.map (fun t => NEvent.dispatch t (send t))) :=
  drain_eq_intersperse send tasks

/-! ## Claim C4 — pagination completeness and graceful degradation -/

/-- C4: with a first page reporting T > 0 total records and r > 0
records, `fetch_announcements` issues exactly `⌈T / r⌉` page requests
(pages 1, 2, …, ⌈T/r⌉ in order) and concatenates the page tables in
request order; a zero total-record count returns the empty list as a
non-error result; and when some page q beyond the first fails after
exhausting retries, the loop stops there and returns the records of
pages 1..q-1 (a partial, non-error result). -/
theorem c4_pagination {α : Type}
    (pageAt : Nat → Option (FeedResp α)) (init : FeedResp α) (pages : Nat → FeedResp α)
    (h1 : pageAt 1 = some init) (h2 : 0 < init.rowcnt) (h3 : init.table ≠ [])
    (hgood : ∀ p ∈ List.range' 2 ((init.rowcnt + init.table.length - 1) / init.table.length - 1),
        pageAt p = some (pages p) ∧ (pages p).table ≠ [])
    (pageZ : Nat → Option (FeedResp α)) (initZ : FeedResp α)
    (hz1 : pageZ 1 = some initZ) (hz2 : initZ.rowcnt = 0)
    (pageF : Nat → Option (FeedResp α)) (initF : FeedResp α)
    (pagesF : Nat → FeedResp α) (q : Nat)
    (hf1 : pageF 1 = some initF) (hf2 : 0 < initF.rowcnt) (hf3 : initF.table ≠ [])
    (hq1 : 2 ≤ q)
    (hq2 : q ≤ (initF.rowcnt + initF.table.length - 1) / initF.table.length)
    (hfail : pageF q = none)
    (hgoodF : ∀ p ∈ List.range' 2 (q - 2),
        pageF p = some (pagesF p) ∧ (pagesF p).table ≠ []) :
    (fetch_announcements pageAt =
        (init.table ++
          ((List.range' 2 ((init.rowcnt + init.table.length - 1) / init.table.length - 1)).map
            (fun p => (pages p).table)).flatten,
         List.range' 1 ((init.rowcnt + init.table.length - 1) / init.table.length))
      ∧ (fetch_announcements pageAt).2.length =
          (init.rowcnt + init.table.length - 1) / init.table.length)
    ∧ fetch_announcements pageZ = ([], [1])
    ∧ fetch_announcements pageF =
        (initF.table ++
          ((List.range' 2 (q - 2)).map (fun p => (pagesF p).table)).flatten,
         1 :: (List.range' 2 (q - 2) ++ [q])) := by
  have hmain : fetch_announcements pageAt =
      (init.table ++
        ((List.range' 2 ((init.rowcnt + init.table.length - 1) / init.table.length - 1)).map
          (fun p => (pages p).table)).flatten,
       List.range' 1 ((init.rowcnt + init.table.length - 1) / init.table.length)) := by
    have hlen : 0 < init.table.length := List.length_pos.mpr h3
    have htp : 1 ≤ (init.rowcnt + init.table.length - 1) / init.table.length := by
      rw [Nat.one_le_div_iff hlen]
      omega
    have hfl := fetchLoop_all_good pageAt pages
      (List.range' 2 ((init.rowcnt + init.table.length - 1) / init.table.length - 1)) hgood
    have e : (init.rowcnt + init.table.length - 1) / init.table.length =
        ((init.rowcnt + init.table.length - 1) / init.table.length - 1) + 1 := by
      omega
    have hrange : List.range' 1 ((init.rowcnt + init.table.length - 1) / init.table.length) =
        1 :: List.range' 2 ((init.rowcnt + init.table.length - 1) / init.table.length - 1) := by
      conv_lhs => rw [e]
      rw [List.range'_succ]
    unfold fetch_announcements
    rw [h1]
    dsimp only
    rw [if_neg (by omega), if_neg (by omega)]
    show (init.table ++ (fetchLoop pageAt _).1, 1 :: (fetchLoop pageAt _).2) = _
    rw [hfl, hrange]
  refine ⟨⟨hmain, ?_⟩, ?_, ?_⟩
  · rw [hmain]
    simp
  · unfold fetch_announcements
    rw [hz1]
    dsimp only
    rw [if_pos hz2]
  · have hlenF : 0 < initF.table.length := List.length_pos.mpr hf3
    have htpF : q ≤ (initF.rowcnt + initF.table.length - 1) / initF.table.length := hq2
    have hsplit : List.range' 2
        ((initF.rowcnt + initF.table.length - 1) / initF.table.length - 1) =
        List.range' 2 (q - 2) ++
          (q :: List.range' (q + 1)
            ((initF.rowcnt + initF.table.length - 1) / initF.table.length - q)) := by
      have h4 : (initF.rowcnt + initF.table.length - 1) / initF.table.length - 1 =
          (q - 2) + (((initF.rowcnt + initF.table.length - 1) / initF.table.length - q) + 1) := by
        omega
      rw [h4, range'_split]
      have h5 : 2 + (q - 2) = q := by omega
      rw [h5, List.range'_succ]
    have hfl := fetchLoop_break_at pageF pagesF q hfail
      (List.range' 2 (q - 2))
      (List.range' (q + 1)
        ((initF.rowcnt + initF.table.length - 1) / initF.table.length - q))
      hgoodF
    unfold fetch_announcements
    rw [hf1]
    dsimp only
    rw [if_neg (by omega), if_neg (by omega)]
    show (initF.table ++ (fetchLoop pageF _).1, 1 :: (fetchLoop pageF _).2) = _
    rw [hsplit, hfl]

def c4Page : Nat → Option (FeedResp Nat) := fun p =>
  if p = 1 then some ⟨5, [1, 2]⟩
  else if p = 2 then some ⟨5, [3, 4]⟩
  else if p = 3 then some ⟨5, [5]⟩
  else none

def c4Pages : Nat → FeedResp Nat := fun p =>
  if p = 2 then ⟨5, [3, 4]⟩ else ⟨5, [5]⟩

def c4PageZ : Nat → Option (FeedResp Nat) := fun p =>
  if p = 1 then some ⟨0, [1]⟩ else none

def c4PageF : Nat → Option (FeedResp Nat) := fun p =>
  if p = 1 then some ⟨8, [1, 2]⟩
  else if p = 2 then some ⟨8, [3, 4]⟩
  else none

theorem c4_pagination_witness :
    (fetch_announcements c4Page = ([1, 2, 3, 4, 5], [1, 2, 3])
      ∧ (fetch_announcements c4Page).2.length = 3)
    ∧ fetch_announcements c4PageZ = ([], [1])
    ∧ fetch_announcements c4PageF = ([1, 2, 3, 4], [1, 2, 3]) := by
  simpa using c4_pagination c4Page ⟨5, [1, 2]⟩ c4Pages rfl (by decide) (by decide)
    (by decide) c4PageZ ⟨0, [1]⟩ rfl rfl c4PageF ⟨8, [1, 2]⟩
    (fun _ => ⟨8, [3, 4]⟩) 3 rfl (by decide) (by decide) (by decide) (by decide)
    rfl (by decide)

/-! ## Claim C5 — media-path cleanup guarantee -/

/-- C5 (amended): on every exit path of the media summarization path,
the local scratch copy of a remotely-downloaded media file is removed
(`localRemoved = localCreated`, and for `file://` URIs no scratch copy
is created or deleted); the uploaded remote artifact is deleted
whenever the upload happened (`remoteDeleted = uploaded`); an
exception during download, upload or poll is caught and converted to
an Error of kind `media_summarization_error`; a failure of the
summarization call itself (exception or retry exhaustion) is absorbed
by the retry wrapper and converted to an Error of kind
`gemini_media_error`, still with full cleanup. -/
theorem c5_media_cleanup {V : Type} (env : MediaEnv V) (u : List Char)
    (envL : MediaEnv V) (uL : List Char)
    (envP : MediaEnv V) (uP : List Char)
    (envG : MediaEnv V) (uG : List Char)
    (hL : isFileUri uL = true)
    (hP : envP.uploadOk = false ∨ envP.pollFailed = true)
    (hG1 : isFileUri uG = true → envG.localExists = true)
    (hG2 : isFileUri uG = false → envG.downloadOk = true)
    (hG3 : envG.uploadOk = true) (hG4 : envG.pollFailed = false)
    (hG5 : (gemini_call_with_retry envG.call envG.jitter 3).result = none) :
    (summarize_media_from_url env u).localRemoved =
        (summarize_media_from_url env u).localCreated
    ∧ (summarize_media_from_url env u).remoteDeleted =
        (summarize_media_from_url env u).uploaded
    ∧ (summarize_media_from_url envL uL).localCreated = false
    ∧ (summarize_media_from_url envL uL).localRemoved = false
    ∧ (summarize_media_from_url envP uP).result =
        SumResult.err "media_summarization_error"
    ∧ (summarize_media_from_url envG uG).result =
        SumResult.err "gemini_media_error"
    ∧ (summarize_media_from_url envG uG).remoteDeleted = true := by
  have gen : ∀ (e : MediaEnv V) (w : List Char),
      (summarize_media_from_url e w).localRemoved =
          (summarize_media_from_url e w).localCreated
      ∧ (summarize_media_from_url e w).remoteDeleted =
          (summarize_media_from_url e w).uploaded := by
    intro e w
    unfold summarize_media_from_url mediaUploadStage
    rcases hf : isFileUri w <;> rcases he : e.localExists <;>
      rcases hd : e.downloadOk <;> rcases hu : e.uploadOk <;>
      rcases hp : e.pollFailed <;>
      simp [hf, he, hd, hu, hp] <;>
      rcases hg : (gemini_call_with_retry e.call e.jitter 3).result <;>
      simp [hg]
  have hLfacts : (summarize_media_from_url envL uL).localCreated = false
      ∧ (summarize_media_from_url envL uL).localRemoved = false := by
    unfold summarize_media_from_url mediaUploadStage
    rcases he : envL.localExists <;> rcases hu : envL.uploadOk <;>
      rcases hp : envL.pollFailed <;>
      simp [hL, he, hu, hp] <;>
      rcases hg : (gemini_call_with_retry envL.call envL.jitter 3).result <;>
      simp [hg]
  have hPfact : (summarize_media_from_url envP uP).result =
      SumResult.err "media_summarization_error" := by
    unfold summarize_media_from_url mediaUploadStage
    rcases hP with hP | hP <;>
      rcases hf : isFileUri uP <;> rcases he : envP.localExists <;>
        rcases hd : envP.downloadOk <;>
        simp [hP, hf, he, hd]
    all_goals rcases hu : envP.uploadOk <;> simp [hu, hP]
  have hGfact : (summarize_media_from_url envG uG).result =
        SumResult.err "gemini_media_error"
      ∧ (summarize_media_from_url envG uG).remoteDeleted = true := by
    unfold summarize_media_from_url mediaUploadStage
    rcases hf : isFileUri uG
    · rw [hG2 hf]
      simp [hf, hG3, hG4, hG5]
    · rw [hf] at hG1
      simp [hf, hG1 rfl, hG3, hG4, hG5]
  exact ⟨(gen env u).1, (gen env u).2, hLfacts.1, hLfacts.2, hPfact,
    hGfact.1, hGfact.2⟩

def c5EnvOk : MediaEnv Nat :=
  ⟨true, true, true, false, fun _ => GemAttempt.fatal, fun _ => 0⟩

def c5EnvBad : MediaEnv Nat :=
  ⟨true, true, false, false, fun _ => GemAttempt.ok 1, fun _ => 0⟩

theorem c5_media_cleanup_witness :
    (summarize_media_from_url c5EnvOk ("http://m.mp4".toList)).localRemoved =
        (summarize_media_from_url c5EnvOk ("http://m.mp4".toList)).localCreated
    ∧ (summarize_media_from_url c5EnvOk ("http://m.mp4".toList)).remoteDeleted =
        (summarize_media_from_url c5EnvOk ("http://m.mp4".toList)).uploaded
    ∧ (summarize_media_from_url c5EnvOk ("file:///tmp/a.mp4".toList)).localCreated = false
    ∧ (summarize_media_from_url c5EnvOk ("file:///tmp/a.mp4".toList)).localRemoved = false
    ∧ (summarize_media_from_url c5EnvBad ("http://m.mp4".toList)).result =
        SumResult.err "media_summarization_error"
    ∧ (summarize_media_from_url c5EnvOk ("http://m.mp4".toList)).result =
        SumResult.err "gemini_media_error"
    ∧ (summarize_media_from_url c5EnvOk ("http://m.mp4".toList)).remoteDeleted = true :=
  c5_media_cleanup c5EnvOk ("http://m.mp4".toList)
    c5EnvOk ("file:///tmp/a.mp4".toList)
    c5EnvBad ("http://m.mp4".toList)
    c5EnvOk ("http://m.mp4".toList)
    (by decide) (Or.inl rfl) (fun _ => rfl) (fun _ => rfl) rfl rfl (by decide)

/-- C5, the claim as frozen, is false on the code for the summarize
stage: an exception raised by the summarization call (here a fatal
error on the very first attempt, remote download/upload/poll all
fine) is swallowed by `_gemini_call_with_retry` and surfaces as
`Error{kind="gemini_media_error"}`, not
`Error{kind="media_summarization_error"}` as claimed. -/
theorem c5_media_error_kind_counterexample :
    c5EnvOk.call 1 = GemAttempt.fatal
    ∧ (summarize_media_from_url c5EnvOk ("http://m.mp4".toList)).result =
        SumResult.err "gemini_media_error"
    ∧ ¬ (summarize_media_from_url c5EnvOk ("http://m.mp4".toList)).result =
        SumResult.err "media_summarization_error" := by
  refine ⟨rfl, by decide, by decide⟩

/-! ## Claim C8 — classification routing -/

/-- C8: a `Link` input with at least one media-kind entry routes to
the media summarization path (media takes precedence even when web
entries are present); a `Link` input with zero media and zero web
entries produces `Error{kind="no_actionable_content"}`; a `Link` input
with only web-kind entries produces a `WebLink` carrying all web
entries with no AI call; and a `Text` input issues exactly one
summarization call when that call succeeds (company name supplied, so
no extraction fallback fires). -/
theorem c8_classification_routing {V : Type} (env : SumEnv V)
    (company body : List Char) (v : V)
    (entriesM : List LinkEntry) (m : LinkEntry) (restM : List LinkEntry)
    (entriesZ : List LinkEntry)
    (entriesW : List LinkEntry) (w : LinkEntry) (restW : List LinkEntry)
    (hM : entriesM.filter (fun l => l.link_type == "media") = m :: restM)
    (hZ1 : entriesZ.filter (fun l => l.link_type == "media") = [])
    (hZ2 : entriesZ.filter (fun l => l.link_type == "web") = [])
    (hW1 : entriesW.filter (fun l => l.link_type == "media") = [])
    (hW2 : entriesW.filter (fun l => l.link_type == "web") = w :: restW)
    (hcomp : placeholderName company = false)
    (htext : env.textCall 1 = GemAttempt.ok v) :
    (summarize env (ClassifiedContent.link entriesM) company).result =
        (summarize_media_from_url env.media m.url).result
    ∧ (summarize env (ClassifiedContent.link entriesM) company).aiCalls =
        (summarize_media_from_url env.media m.url).aiCalls
    ∧ (summarize env (ClassifiedContent.link entriesZ) company).result =
        SumResult.err "no_actionable_content"
    ∧ summarize env (ClassifiedContent.link entriesW) company =
        ⟨SumResult.webLink (w :: restW), 0, 0⟩
    ∧ summarize env (ClassifiedContent.text body) company =
        ⟨SumResult.summary v [], 1, 0⟩ := by
  have hm : (List.range 3).map (fun k => k + 1) = [1, 2, 3] := by decide
  refine ⟨?_, ?_, ?_, ?_, ?_⟩
  · simp [summarize, hM]
  · simp [summarize, hM]
  · simp [summarize, hZ1, hZ2, List.isEmpty_iff]
  · simp [summarize, hW1, hW2, List.isEmpty_iff, hcomp]
  · unfold summarize gemini_call_with_retry
    rw [hm]
    simp [gemRetryGo, htext, hcomp]

def c8Env : SumEnv Nat :=
  ⟨fun k => if k = 1 then GemAttempt.ok 9 else GemAttempt.transient, fun _ => 0,
   ⟨true, true, true, false, fun _ => GemAttempt.ok 9, fun _ => 0⟩⟩

def c8Media : LinkEntry := ⟨"http://m.mp4".toList, "media"⟩

def c8Web : LinkEntry := ⟨"http://w".toList, "web"⟩

theorem c8_classification_routing_witness :
    (summarize c8Env (ClassifiedContent.link [c8Web, c8Media]) ("Co".toList)).result =
        (summarize_media_from_url c8Env.media c8Media.url).result
    ∧ (summarize c8Env (ClassifiedContent.link [c8Web, c8Media]) ("Co".toList)).aiCalls =
        (summarize_media_from_url c8Env.media c8Media.url).aiCalls
    ∧ (summarize c8Env (ClassifiedContent.link []) ("Co".toList)).result =
        SumResult.err "no_actionable_content"
    ∧ summarize c8Env (ClassifiedContent.link [c8Web]) ("Co".toList) =
        ⟨SumResult.webLink [c8Web], 0, 0⟩
    ∧ summarize c8Env (ClassifiedContent.text ("t".toList)) ("Co".toList) =
        ⟨SumResult.summary 9 [], 1, 0⟩ :=
  c8_classification_routing c8Env ("Co".toList) ("t".toList) 9
    [c8Web, c8Media] c8Media [] [] [c8Web] c8Web []
    (by decide) (by decide) (by decide) (by decide) (by decide) (by decide) rfl

/-! ## Claim C10 — disabled notifier reports success -/

/-- C10: if the bot token or either channel identifier is absent from
the configuration, the notifier is disabled; `_send_message` then
performs no transport send and returns True, every notify method
performs zero transport sends, and draining any task list with such a
notifier completes with every dispatch reported successful. -/
theorem c10_disabled_notifier (cfg : NotifierCfg)
    (netMd netPlain : Nat → SendAttempt) (links : List LinkEntry)
    (tasks : List NTask)
    (h : cfg.bot_token = none ∨ cfg.chat_id_summaries = none ∨
         cfg.chat_id_links = none) :
    is_enabled cfg = false
    ∧ send_message cfg netMd netPlain = (true, 0)
    ∧ send_plain cfg netPlain = (true, 0)
    ∧ notify_summary cfg netMd netPlain = 0
    ∧ notify_error cfg netMd netPlain = 0
    ∧ notify_weblink cfg netMd netPlain links = 0
    ∧ run_all_notifications_sequentially
        (fun _ : NTask => (send_message cfg netMd netPlain).1) tasks =
        List.intersperse (NEvent.delay 2)
          (tasks.map (fun t => NEvent.dispatch t true)) := by
  have hen : is_enabled cfg = false := by
    rcases h with h | h | h <;> simp [is_enabled, truthy, h]
  have hsm : send_message cfg netMd netPlain = (true, 0) := by
    simp [send_message, hen]
  refine ⟨hen, hsm, by simp [send_plain, hen], by simp [notify_summary, hsm],
    by simp [notify_error, hsm], ?_, ?_⟩
  · unfold notify_weblink
    rcases hl : links.isEmpty <;> simp [hl, hsm]
  · rw [drain_eq_intersperse]
    simp [hsm]

def c10Cfg : NotifierCfg := ⟨none, some "4242", some "4243"⟩

theorem c10_disabled_notifier_witness :
    is_enabled c10Cfg = false
    ∧ send_message c10Cfg (fun _ => SendAttempt.fatal) (fun _ => SendAttempt.fatal) = (true, 0)
    ∧ send_plain c10Cfg (fun _ => SendAttempt.fatal) = (true, 0)
    ∧ notify_summary c10Cfg (fun _ => SendAttempt.fatal) (fun _ => SendAttempt.fatal) = 0
    ∧ notify_error c10Cfg (fun _ => SendAttempt.fatal) (fun _ => SendAttempt.fatal) = 0
    ∧ notify_weblink c10Cfg (fun _ => SendAttempt.fatal) (fun _ => SendAttempt.fatal)
        [⟨"http://w".toList, "web"⟩] = 0
    ∧ run_all_notifications_sequentially
        (fun _ : NTask =>
          (send_message c10Cfg (fun _ => SendAttempt.fatal) (fun _ => SendAttempt.fatal)).1)
        [NTask.summary ['a'], NTask.error ['b']] =
        List.intersperse (NEvent.delay 2)
          ([NTask.summary ['a'], NTask.error ['b']].map
            (fun t => NEvent.dispatch t true)) :=
  c10_disabled_notifier c10Cfg (fun _ => SendAttempt.fatal) (fun _ => SendAttempt.fatal)
    [⟨"http://w".toList, "web"⟩] [NTask.summary ['a'], NTask.error ['b']]
    (Or.inl rfl)

/-! ## Claim C7 — status mapping and notification conversion -/

/-- C7: outside test mode, for an item the store says needs
summarization, `process_and_summarize` persists PROCESSED for a
Summary or WebLink outcome and ERROR_PROCESSING for an Error outcome,
and converts each of these outcomes into exactly one notification task
of the matching kind (summary, weblink, error respectively — so
ERROR_PROCESSING outcomes still enqueue a notification); an outcome
whose type tag is none of the three yields no task. -/
theorem c7_status_mapping (env : RunEnv) (db : DB) (id : NewsId) (t : SumType)
    (h1 : env.test_mode = false)
    (h2 : needs_summarization db id = true)
    (h3 : env.oracle id = t) :
    dbGet (process_and_summarize env db id).1 id =
        some (match t with
          | SumType.error => Status.ERROR_PROCESSING
          | _ => Status.PROCESSED)
    ∧ (process_and_summarize env db id).2.1 =
        (match t with
          | SumType.summary => some (NTask.summary id)
          | SumType.web_link => some (NTask.weblink id)
          | SumType.error => some (NTask.error id)
          | SumType.other => none)
    ∧ (process_and_summarize env db id).2.2 = [id] := by
  cases t <;>
    simp [process_and_summarize, h1, h2, h3, update_summary, dbGet_dbSet_self]

theorem c7_status_mapping_witness :
    dbGet (process_and_summarize
        ⟨false, 0, fun _ _ => none, fun _ => true, [], fun _ => SumType.error⟩
        [] ['a']).1 ['a'] = some Status.ERROR_PROCESSING
    ∧ (process_and_summarize
        ⟨false, 0, fun _ _ => none, fun _ => true, [], fun _ => SumType.error⟩
        [] ['a']).2.1 = some (NTask.error ['a'])
    ∧ (process_and_summarize
        ⟨false, 0, fun _ _ => none, fun _ => true, [], fun _ => SumType.error⟩
        [] ['a']).2.2 = [['a']] :=
  c7_status_mapping
    ⟨false, 0, fun _ _ => none, fun _ => true, [], fun _ => SumType.error⟩
    [] ['a'] SumType.error rfl rfl rfl

/-! ## Run-loop lemmas -/

theorem stepItem_processed (env : RunEnv) (s : RunState) (item : Announcement)
    (id : NewsId) (hid : item.news_id = some id)
    (hp : dbGet s.db id = some Status.PROCESSED) :
    stepItem env s item = s := by
  simp [stepItem, hid, is_processed, needs_summarization, hp]

theorem runItems_all_skip (env : RunEnv) :
    ∀ (items : List Announcement) (s : RunState),
      (∀ it ∈ items, ∀ i, it.news_id = some i →
        dbGet s.db i = some Status.PROCESSED) →
      runItems env items s = s
  | [], _, _ => rfl
  | it :: rest, s, h => by
    by_cases hc : 0 < env.max_items ∧ env.max_items ≤ s.newItems
    · simp [runItems, hc]
    · have hstep : stepItem env s it = s := by
        cases hn : it.news_id with
        | none => simp [stepItem, hn]
        | some i => exact stepItem_processed env s it i hn (h it (by simp) i hn)
      have ih := runItems_all_skip env rest s
        (fun it' hm i hi => h it' (by simp [hm]) i hi)
      simp [runItems, hc, hstep, ih]

theorem summarizePhase_newItems (env : RunEnv) (s : RunState) (item : Announcement)
    (id : NewsId) (name : List Char) (p : Option (List Char)) :
    (summarizePhase env s item id name p).newItems = s.newItems := by
  rcases p with _ | p0 <;>
    (unfold summarizePhase; dsimp only; split) <;> first
    | rfl
    | (split <;> rfl)

theorem newItemPhase_newItems_le (env : RunEnv) (s : RunState) (item : Announcement)
    (id : NewsId) (name : List Char) :
    (newItemPhase env s item id name).1.newItems ≤ s.newItems + 1 := by
  unfold newItemPhase
  split
  · simp
  · dsimp only
    split
    · simp
    · split
      · simp
      · split
        · simp
        · simp

theorem stepItem_newItems_le (env : RunEnv) (s : RunState) (item : Announcement) :
    (stepItem env s item).newItems ≤ s.newItems + 1 := by
  unfold stepItem
  cases hn : item.news_id with
  | none => simp
  | some id =>
    dsimp only
    split
    · simp
    · rw [summarizePhase_newItems]
      exact newItemPhase_newItems_le env s item id (pyStrip item.slongname)

theorem runItems_newItems_le (env : RunEnv) (h : 0 < env.max_items) :
    ∀ (items : List Announcement) (s : RunState),
      s.newItems ≤ env.max_items →
      (runItems env items s).newItems ≤ env.max_items
  | [], _, hs => hs
  | it :: rest, s, hs => by
    by_cases hc : 0 < env.max_items ∧ env.max_items ≤ s.newItems
    · simpa [runItems, hc] using hs
    · have hstep := stepItem_newItems_le env s it
      have ih := runItems_newItems_le env h rest (stepItem env s it) (by omega)
      simpa [runItems, hc] using ih

/-! ## Claim C1 — idempotence / exactly-once -/

/-- C1: running the run loop twice on the same announcement over a
persistent store produces exactly one notification task total: the
first run downloads, summarizes, marks the identifier PROCESSED and
yields one task; the second run, seeing PROCESSED, performs no
download, no summarization and yields no task; moreover any run over
a set whose identifiers are all PROCESSED performs no download, no
summarization and yields no task. -/
theorem c1_run_idempotent (env : RunEnv) (db0 : DB) (a : Announcement)
    (id : NewsId) (u : List Char) (anns : List Announcement) (dbP : DB)
    (h1 : env.test_mode = false)
    (h2 : a.news_id = some id)
    (h3 : a.pdf_url_override = some u)
    (h4 : isFileUri u = false)
    (h5 : env.webOk u = true)
    (h6 : dbGet db0 id = none)
    (h7 : env.oracle id = SumType.summary)
    (h8 : ∀ a' ∈ anns, ∀ i, a'.news_id = some i →
      dbGet dbP i = some Status.PROCESSED) :
    (run env db0 [a]).tasks = [NTask.summary id]
    ∧ dbGet (run env db0 [a]).db id = some Status.PROCESSED
    ∧ (run env (run env db0 [a]).db [a]).tasks = []
    ∧ (run env (run env db0 [a]).db [a]).downloads = []
    ∧ (run env (run env db0 [a]).db [a]).summCalls = []
    ∧ ((run env db0 [a]).tasks ++ (run env (run env db0 [a]).db [a]).tasks).length = 1
    ∧ (run env dbP anns).tasks = []
    ∧ (run env dbP anns).downloads = []
    ∧ (run env dbP anns).summCalls = [] := by
  have hcap0 : ¬ (0 < env.max_items ∧ env.max_items ≤ (initState db0).newItems) := by
    dsimp only [initState]
    omega
  have hrun1 : run env db0 [a] =
      { db := update_summary (add_new_announcement db0 id) id Status.PROCESSED,
        created := ["downloads/".toList ++ (a.scrip_code ++
          ('_' :: pyRstrip ((pyStrip a.slongname).filter
            (fun c => c.isAlphanum || c.isWhitespace))) ++
          ('_' :: id.take 8) ++ ".pdf".toList)],
        newItems := 1, tasks := [NTask.summary id],
        downloads := [id], summCalls := [id] } := by
    unfold run
    rw [List.reverse_singleton]
    simp only [runItems]
    rw [if_neg hcap0]
    simp [initState, stepItem, h2, is_processed, h6, newItemPhase, h3,
      download_pdf, h1, h4, h5, summarizePhase, pathExists,
      process_and_summarize, needs_summarization,
      add_new_announcement, update_summary, dbGet_dbSet_self, h7]
  have hget : dbGet (run env db0 [a]).db id = some Status.PROCESSED := by
    rw [hrun1]
    exact dbGet_dbSet_self _ id Status.PROCESSED
  have hskip2 : run env (run env db0 [a]).db [a] =
      initState (run env db0 [a]).db := by
    unfold run
    rw [List.reverse_singleton]
    refine runItems_all_skip env [a] _ ?_
    intro it hit i hi
    have hita : it = a := by simpa using hit
    subst hita
    rw [h2] at hi
    cases hi
    simpa [initState] using hget
  have hskipP : run env dbP anns = initState dbP := by
    unfold run
    refine runItems_all_skip env anns.reverse _ ?_
    intro it hit i hi
    exact h8 it (List.mem_reverse.mp hit) i hi
  refine ⟨by rw [hrun1], hget, by rw [hskip2]; rfl, by rw [hskip2]; rfl,
    by rw [hskip2]; rfl, by rw [hskip2, hrun1]; rfl,
    by rw [hskipP]; rfl, by rw [hskipP]; rfl, by rw [hskipP]; rfl⟩

def c1Env : RunEnv :=
  ⟨false, 0, fun _ _ => none, fun _ => true, [], fun _ => SumType.summary⟩

def c1Ann : Announcement :=
  ⟨some ['i'], ['1'], ['C', 'o'], some ("http://u".toList), false⟩

theorem c1_run_idempotent_witness :
    (run c1Env [] [c1Ann]).tasks = [NTask.summary ['i']]
    ∧ dbGet (run c1Env [] [c1Ann]).db ['i'] = some Status.PROCESSED
    ∧ (run c1Env (run c1Env [] [c1Ann]).db [c1Ann]).tasks = []
    ∧ (run c1Env (run c1Env [] [c1Ann]).db [c1Ann]).downloads = []
    ∧ (run c1Env (run c1Env [] [c1Ann]).db [c1Ann]).summCalls = []
    ∧ ((run c1Env [] [c1Ann]).tasks ++
        (run c1Env (run c1Env [] [c1Ann]).db [c1Ann]).tasks).length = 1
    ∧ (run c1Env [] ([] : List Announcement)).tasks = []
    ∧ (run c1Env [] ([] : List Announcement)).downloads = []
    ∧ (run c1Env [] ([] : List Announcement)).summCalls = [] :=
  c1_run_idempotent c1Env [] c1Ann ['i'] ("http://u".toList) [] []
    rfl rfl rfl (by decide) rfl rfl rfl (by simp)

/-! ## Claim C3 — resumability without re-download -/

/-- C3: an identifier persisted at DOWNLOADED is, on the next run over
its announcement, summarized without any download invocation: the run
rebuilds the deterministic path
`downloads/{scrip}_{sanitized name}_{id[:8]}.pdf`, which is exactly
the path `download_pdf` saves a web download of the same announcement
under, and processes the item when that file exists. -/
theorem c3_resumable_no_redownload (env : RunEnv) (db : DB) (a : Announcement)
    (id : NewsId) (cr : List (List Char)) (u : List Char)
    (h1 : env.test_mode = false)
    (h2 : a.news_id = some id)
    (h3 : dbGet db id = some Status.DOWNLOADED)
    (hfs : env.fs0.contains ("downloads/".toList ++ (a.scrip_code ++
        ('_' :: pyRstrip ((pyStrip a.slongname).filter
          (fun c => c.isAlphanum || c.isWhitespace))) ++
        ('_' :: id.take 8) ++ ".pdf".toList)) = true)
    (hu1 : isFileUri u = false) (hu2 : env.webOk u = true) :
    (run env db [a]).downloads = []
    ∧ (run env db [a]).summCalls = [id]
    ∧ dbGet (run env db [a]).db id =
        some (if env.oracle id ≠ SumType.error then Status.PROCESSED
              else Status.ERROR_PROCESSING)
    ∧ (download_pdf env cr u a.scrip_code (pyStrip a.slongname) id).1 =
        some ("downloads/".toList ++ (a.scrip_code ++
          ('_' :: pyRstrip ((pyStrip a.slongname).filter
            (fun c => c.isAlphanum || c.isWhitespace))) ++
          ('_' :: id.take 8) ++ ".pdf".toList)) := by
  have hcap0 : ¬ (0 < env.max_items ∧ env.max_items ≤ (initState db).newItems) := by
    dsimp only [initState]
    omega
  have hfs2 := hfs
  simp only [List.append_assoc, List.cons_append, List.nil_append] at hfs2
  simp at hfs2
  refine ⟨?_, ?_, ?_, ?_⟩
  · unfold run
    rw [List.reverse_singleton]
    simp only [runItems]
    rw [if_neg hcap0]
    simp [initState, stepItem, h2, is_processed, needs_summarization, h3,
      newItemPhase, summarizePhase, pathExists, hfs2,
      process_and_summarize, h1, update_summary]
  · unfold run
    rw [List.reverse_singleton]
    simp only [runItems]
    rw [if_neg hcap0]
    simp [initState, stepItem, h2, is_processed, needs_summarization, h3,
      newItemPhase, summarizePhase, pathExists, hfs2,
      process_and_summarize, h1, update_summary]
  · unfold run
    rw [List.reverse_singleton]
    simp only [runItems]
    rw [if_neg hcap0]
    simp [initState, stepItem, h2, is_processed, needs_summarization, h3,
      newItemPhase, summarizePhase, pathExists, hfs2,
      process_and_summarize, h1, update_summary, dbGet_dbSet_self]
  · simp [download_pdf, h1, hu1, hu2]

def c3Path : List Char :=
  "downloads/".toList ++ (['1'] ++
    ('_' :: pyRstrip ((pyStrip ['C', 'o']).filter
      (fun c => c.isAlphanum || c.isWhitespace))) ++
    ('_' :: List.take 8 ['i']) ++ ".pdf".toList)

def c3Env : RunEnv :=
  ⟨false, 0, fun _ _ => none, fun _ => true, [c3Path], fun _ => SumType.summary⟩

def c3Ann : Announcement := ⟨some ['i'], ['1'], ['C', 'o'], none, false⟩

theorem c3_resumable_no_redownload_witness :
    (run c3Env [(['i'], Status.DOWNLOADED)] [c3Ann]).downloads = []
    ∧ (run c3Env [(['i'], Status.DOWNLOADED)] [c3Ann]).summCalls = [['i']]
    ∧ dbGet (run c3Env [(['i'], Status.DOWNLOADED)] [c3Ann]).db ['i'] =
        some (if c3Env.oracle ['i'] ≠ SumType.error then Status.PROCESSED
              else Status.ERROR_PROCESSING)
    ∧ (download_pdf c3Env [] ("http://u".toList) c3Ann.scrip_code
        (pyStrip c3Ann.slongname) ['i']).1 =
        some ("downloads/".toList ++ (c3Ann.scrip_code ++
          ('_' :: pyRstrip ((pyStrip c3Ann.slongname).filter
            (fun c => c.isAlphanum || c.isWhitespace))) ++
          ('_' :: List.take 8 ['i']) ++ ".pdf".toList)) :=
  c3_resumable_no_redownload c3Env [(['i'], Status.DOWNLOADED)] c3Ann ['i'] []
    ("http://u".toList) rfl rfl rfl (by decide) (by decide) rfl

/-! ## Claim C6 — per-run cap on new items -/

/-- C6 (amended): with the cap set (max_items > 0), a run processes at
most max_items not-yet-seen identifiers; an item already at
DOWNLOADED-but-not-summarized status encountered before the cap is
reached is summarized without counting toward the cap; but once the
cap is reached the whole loop halts, so remaining items — including
DOWNLOADED-but-not-summarized ones — are not retried in that run. -/
theorem c6_cap_new_items (envA : RunEnv) (dbA : DB) (annsA : List Announcement)
    (envB : RunEnv) (sB : RunState) (aB : Announcement) (idB : NewsId)
    (envC : RunEnv) (itemsC : List Announcement) (sC : RunState)
    (hA : 0 < envA.max_items)
    (hB1 : envB.test_mode = false) (hB2 : aB.news_id = some idB)
    (hB3 : dbGet sB.db idB = some Status.DOWNLOADED)
    (hB4 : pathExists envB sB.created ("downloads/".toList ++ (aB.scrip_code ++
        ('_' :: pyRstrip ((pyStrip aB.slongname).filter
          (fun c => c.isAlphanum || c.isWhitespace))) ++
        ('_' :: idB.take 8) ++ ".pdf".toList)) = true)
    (hC1 : 0 < envC.max_items) (hC2 : envC.max_items ≤ sC.newItems) :
    (run envA dbA annsA).newItems ≤ envA.max_items
    ∧ (stepItem envB sB aB).newItems = sB.newItems
    ∧ (stepItem envB sB aB).summCalls = sB.summCalls ++ [idB]
    ∧ (stepItem envB sB aB).downloads = sB.downloads
    ∧ runItems envC itemsC sC = sC := by
  have hB4' := hB4
  simp only [List.append_assoc, List.cons_append, List.nil_append] at hB4'
  simp [pathExists] at hB4'
  refine ⟨?_, ?_, ?_, ?_, ?_⟩
  · exact runItems_newItems_le envA hA annsA.reverse (initState dbA)
      (by dsimp only [initState]; omega)
  · simp [stepItem, hB2, is_processed, needs_summarization, hB3, newItemPhase,
      summarizePhase, pathExists, hB4', process_and_summarize, hB1]
  · simp [stepItem, hB2, is_processed, needs_summarization, hB3, newItemPhase,
      summarizePhase, pathExists, hB4', process_and_summarize, hB1]
  · simp [stepItem, hB2, is_processed, needs_summarization, hB3, newItemPhase,
      summarizePhase, pathExists, hB4', process_and_summarize, hB1]
  · cases itemsC with
    | nil => rfl
    | cons it rest => simp [runItems, hC1, hC2]

def c6PathD : List Char :=
  "downloads/".toList ++ (['2'] ++
    ('_' :: pyRstrip ((pyStrip ['D']).filter
      (fun c => c.isAlphanum || c.isWhitespace))) ++
    ('_' :: List.take 8 ['d']) ++ ".pdf".toList)

def c6Env : RunEnv :=
  ⟨false, 1, fun _ _ => none, fun _ => true, [c6PathD], fun _ => SumType.summary⟩

def c6AnnD : Announcement := ⟨some ['d'], ['2'], ['D'], none, false⟩

def c6AnnN : Announcement :=
  ⟨some ['n'], ['3'], ['N'], some ("http://n".toList), false⟩

def c6Db : DB := [(['d'], Status.DOWNLOADED)]

theorem c6_cap_new_items_witness :
    (run c6Env c6Db [c6AnnN, c6AnnD]).newItems ≤ c6Env.max_items
    ∧ (stepItem c6Env (initState c6Db) c6AnnD).newItems = (initState c6Db).newItems
    ∧ (stepItem c6Env (initState c6Db) c6AnnD).summCalls =
        (initState c6Db).summCalls ++ [['d']]
    ∧ (stepItem c6Env (initState c6Db) c6AnnD).downloads = (initState c6Db).downloads
    ∧ runItems c6Env [c6AnnN] ⟨c6Db, [], 1, [], [], []⟩ = ⟨c6Db, [], 1, [], [], []⟩ :=
  c6_cap_new_items c6Env c6Db [c6AnnN, c6AnnD]
    c6Env (initState c6Db) c6AnnD ['d']
    c6Env [c6AnnN] ⟨c6Db, [], 1, [], [], []⟩
    (by decide) rfl rfl (by decide) (by decide) (by decide) (by decide)

/-- C6, the claim as frozen, is false on the code: with max_items = 1
and an announcement list holding one fresh item and one
DOWNLOADED-but-not-summarized item whose file is present (processed in
reversed order: the fresh item first), the fresh item consumes the cap
and the loop then breaks, so the DOWNLOADED item is never summarized —
the claim says it is always retried regardless of the cap.  (With the
cap disabled the same run does summarize it.) -/
theorem c6_cap_counterexample :
    (run c6Env c6Db [c6AnnD, c6AnnN]).summCalls = [['n']]
    ∧ ((run c6Env c6Db [c6AnnD, c6AnnN]).summCalls.contains ['d']) = false
    ∧ dbGet (run c6Env c6Db [c6AnnD, c6AnnN]).db ['d'] = some Status.DOWNLOADED
    ∧ ((run { c6Env with max_items := 0 } c6Db
        [c6AnnD, c6AnnN]).summCalls.contains ['d']) = true := by
  refine ⟨by decide, by decide, by decide, by decide⟩

end BseAuto
